import Mathlib

/-!
Verification of the Form C compliance-review backend.

This file gives a shallow embedding, in Lean, of the logic-bearing parts of the
backend: the compliance analyzer (`compliance_analyzer.py`), the issues
checklist module (`compliance_issues_checklist.py`), the PDF extractor
(`pdf_extractor.py`) and the analyzer bootstrap of the FastAPI app
(`main.py`).  Python strings are modelled as `List Char` (one element per code
point), Python dicts with a fixed literal shape as ordered association lists,
Python exceptions as `Except`, and the external Gemini call as an injected
function `Text → Except Text Text` (argument: the prompt; error: the text of
the raised exception).  The theorems at the end of the file settle the spec
claims against these definitions.
-/

set_option maxRecDepth 8000

/-- Python strings are modelled as lists of characters (code points). -/
abbrev Text := List Char

/-- A Python value as it appears in the result dictionaries built by
`compliance_analyzer.py`: a string, a boolean, `None`, a list, or a nested
dict (modelled as an ordered association list, i.e. insertion order). -/
inductive PyValue where
  | str (s : Text)
  | bool (b : Bool)
  | none
  | pylist (items : List PyValue)
  | pydict (fields : List (String × PyValue))

/-- An (insertion-ordered) Python dict with string keys. -/
abbrev PyDict := List (String × PyValue)

/-- Key lookup in a dict literal (first matching key; the dict literals in the
source have no duplicate keys). -/
def dictLookup (d : PyDict) (k : String) : Option PyValue :=
  match d with
  | [] => Option.none
  | (k2, v) :: rest => if k2 = k then some v else dictLookup rest k

/-- The key set of a dict, in insertion order. -/
def dictKeys (d : PyDict) : List String := d.map (·.1)

/-- Fragment 1 of the COMPLIANCE_CHECKLIST constant (compliance_analyzer.py lines 14-103). -/
def CHECKLIST_FRAG1 : Text := "
FORM C COMPLIANCE CHECKLIST (Rule 201 - Regulation Crowdfunding)

The issuer must provide the following disclosures:

1. ISSUER ELIGIBILITY & BASIC DATA (Rule 201(a), (b)):
   - Issuer name and legal status
   - Form of organization, jurisdiction, date of organization
   - Physical address and website
   - Intermediary information (must be DealMaker Securities LLC)
   - Intermediary compensation details

2. OFFERING SUMMARY DATA (Rule 201(c)):
   - Type of security offered
   - Target number of securities and price
   - Target offering amount and maximum offering amount
".data

/-- Fragment 2 of the COMPLIANCE_CHECKLIST constant (compliance_analyzer.py lines 14-103). -/
def CHECKLIST_FRAG2 : Text := "   - Oversubscription handling (if applicable)
   - Offering deadline and terms
   - Current number of employees

3. BUSINESS DESCRIPTION (Rule 201(b)):
   - Description of business and business plan
   - Must be specific and not generic

4. RISK FACTORS (Rule 201(g)):
   - Material factors that make investment speculative or risky
   - Must be specific to the issuer, not boilerplate
   - Should address industry-specific risks
   - Must be consistent with business description

5. DIRECTORS & OFFICERS (Rule 201(h)):
   - Names of all directors and officers
   - Positions held and duration
".data

/-- Fragment 3 of the COMPLIANCE_CHECKLIST constant (compliance_analyzer.py lines 14-103). -/
def CHECKLIST_FRAG3 : Text := "   - Business experience for past 3 years

6. BENEFICIAL OWNERS (Rule 201(i)):
   - 20%+ owners (voting equity)
   - Calculated on basis of voting power

7. OWNERSHIP & CAPITAL STRUCTURE (Rule 201(j)):
   - Terms of securities being offered
   - Description of each class of security
   - Voting rights and limitations
   - How rights may be diluted

8. FINANCIAL STATEMENTS (Rule 201(t)):
   - $0-$124k: Tax returns + CEO certified statements
   - $124k-$618k: CPA reviewed financial statements
   - $618k+: CPA audited financial statements (first-time issuers up to $1.235M can use reviewed)

".data

/-- Fragment 4 of the COMPLIANCE_CHECKLIST constant (compliance_analyzer.py lines 14-103). -/
def CHECKLIST_FRAG4 : Text := "9. FINANCIAL CONDITION DISCUSSION (Rule 201(v)):
   - Liquidity, capital resources
   - Historical results of operations

10. USE OF PROCEEDS (Rule 201(f)):
    - Specific purpose and intended use
    - Must provide detail, not vague \"general corporate purposes\"
    - If accepting oversubscriptions, explain use of excess

11. RELATED PARTY TRANSACTIONS (Rule 201(s)):
    - Transactions >5% of capital raised
    - Must disclose all material terms

12. PRIOR OFFERINGS (Rule 201(e)):
    - Exempt offerings in past 3 years
    - Date, exemption used, securities type, amount

".data

/-- Fragment 5 of the COMPLIANCE_CHECKLIST constant (compliance_analyzer.py lines 14-103). -/
def CHECKLIST_FRAG5 : Text := "13. DEBT & LIABILITIES (Rule 201(u)):
    - Material indebtedness terms
    - Amount, interest rate, maturity date

14. DISQUALIFICATION (Rule 227.503):
    - Bad actor disclosure
    - Pre-2016 triggering events

15. TRANSACTION PROCESSING (Rule 201(w)):
    - Investment confirmation process
    - Cancellation rights (48 hours)
    - Material changes policy
    - Rolling/early closings

16. INVESTOR LIMITATIONS (Rule 100):
    - Clear disclosure of investment limits

CRITICAL INCONSISTENCIES TO FLAG:
- Conflicting amounts across sections (offering amount, valuation, financials)
".data

/-- Fragment 6 of the COMPLIANCE_CHECKLIST constant (compliance_analyzer.py lines 14-103). -/
def CHECKLIST_FRAG6 : Text := "- Dates that don\x27t align (fiscal year, offering deadline, etc.)
- Mathematical errors (cap table, revenue sums, percentages)
- Contradictions between sections (business model vs. revenue breakdown)
".data

/-- The COMPLIANCE_CHECKLIST constant of compliance_analyzer.py (lines 14-103): the
concatenation of its consecutive fragments, verbatim from the source. -/
def COMPLIANCE_CHECKLIST : Text :=
  CHECKLIST_FRAG1 ++ CHECKLIST_FRAG2 ++ CHECKLIST_FRAG3 ++ CHECKLIST_FRAG4 ++ CHECKLIST_FRAG5 ++ CHECKLIST_FRAG6

/-- Fragment 1 of segment 1 of REVIEW_PROMPT_TEMPLATE (compliance_analyzer.py lines 106-162). -/
def PROMPT_SEG1_FRAG1 : Text := "
You are an expert compliance analyst for DealMaker Securities LLC reviewing a Form C submission for Regulation Crowdfunding.

Your task is to analyze the provided Form C document and generate a comprehensive compliance report following this exact structure:

**REPORT STRUCTURE:**

**I. 🛑 Required Issuer Amendments (External Actions)**
Focus on material disclosure deficiencies that must be corrected. Organize by category:
- General Issues
- Risk Factor Issues
- Financial Consistency & Math Validation
- Capital Structure Review
- Use of Proceeds Validation
- Cross-Section Conflicts

".data

/-- Fragment 2 of segment 1 of REVIEW_PROMPT_TEMPLATE (compliance_analyzer.py lines 106-162). -/
def PROMPT_SEG1_FRAG2 : Text := "For each issue, provide:
- Issue description
- Rule citation (e.g., Rule 201(f))
- Severity (Critical, High, Medium)
- Page number where found
- Specific explanation with details from the document
- AI reasoning explaining how you detected this issue

**II. ✅ Internal Reviewer Verification (Oversight Tasks)**
Always include these five checks:
1. Financial Statements (Rule 201(t)) - Confirm required level of assurance
2. Investor Fee Calculation
3. Intermediary Compensation (Rule 201(l))
4. Intermediary Other Interest (Rule 201(l))
5. Progress Update Mechanism (Rule 203)

".data

/-- Fragment 3 of segment 1 of REVIEW_PROMPT_TEMPLATE (compliance_analyzer.py lines 106-162). -/
def PROMPT_SEG1_FRAG3 : Text := "**III. 👍 Required Disclosures Present and Compliant (Rule 201)**
List all Rule 201 disclosures that ARE present and meet minimum standards.

**IV. 🧑‍💼 Key Personnel and Significant Ownership**
- Officers and Directors with their positions
- 20%+ owners with ownership percentages
- Control persons for entity owners

**CRITICAL ANALYSIS RULES:**
1. PRIORITIZE INCONSISTENCIES: Any conflicting information (amounts, dates, numbers) is CRITICAL
2. FLAG MISSING MATERIAL TERMS: Debt maturity, conversion terms, use of proceeds detail
3. CHECK MATH: Verify all calculations and cross-references
".data

/-- Fragment 4 of segment 1 of REVIEW_PROMPT_TEMPLATE (compliance_analyzer.py lines 106-162). -/
def PROMPT_SEG1_FRAG4 : Text := "4. ASSESS SPECIFICITY: Flag generic/boilerplate language in risks and use of proceeds
5. VERIFY ALIGNMENT: Business description must match financials and risk factors

**COMPLIANCE CHECKLIST:**
".data

/-- Literal segment 1 of REVIEW_PROMPT_TEMPLATE (compliance_analyzer.py lines 106-162). -/
def PROMPT_SEG1 : Text :=
  PROMPT_SEG1_FRAG1 ++ PROMPT_SEG1_FRAG2 ++ PROMPT_SEG1_FRAG3 ++ PROMPT_SEG1_FRAG4

/-- Literal segment 2 of REVIEW_PROMPT_TEMPLATE (compliance_analyzer.py lines 106-162):
the template text between the format placeholders. -/
def PROMPT_SEG2 : Text := "

**FORM C TO ANALYZE:**
Issuer: ".data

/-- Literal segment 3 of REVIEW_PROMPT_TEMPLATE (compliance_analyzer.py lines 106-162):
the template text between the format placeholders. -/
def PROMPT_SEG3 : Text := "

".data

/-- Literal segment 4 of REVIEW_PROMPT_TEMPLATE (compliance_analyzer.py lines 106-162):
the template text between the format placeholders. -/
def PROMPT_SEG4 : Text := "

Generate the complete compliance report now.
".data


/-- `REVIEW_PROMPT_TEMPLATE.format(checklist=…, issuer_name=…, form_c_text=…)`
(compliance_analyzer.py lines 191-195): the template text with the three
placeholders replaced by the arguments, in the order they occur. -/
def REVIEW_PROMPT_TEMPLATE_format (checklist issuer_name form_c_text : Text) : Text :=
  PROMPT_SEG1 ++ checklist ++ PROMPT_SEG2 ++ issuer_name ++ PROMPT_SEG3 ++
    form_c_text ++ PROMPT_SEG4

/-- The document-text cap applied in `analyze_form_c`:
`form_c_text[:100000]` (compliance_analyzer.py line 194). -/
def FORM_C_TEXT_CAP : Nat := 100000

/-- The prompt built by `ComplianceAnalyzer.analyze_form_c`
(compliance_analyzer.py lines 191-195): the review template formatted with the
hard-coded checklist, the issuer name, and the document text truncated to the
first `FORM_C_TEXT_CAP` characters (Python slice `[:100000]` = `List.take`). -/
def analyze_form_c_prompt (issuer_name form_c_text : Text) : Text :=
  REVIEW_PROMPT_TEMPLATE_format COMPLIANCE_CHECKLIST issuer_name
    (form_c_text.take FORM_C_TEXT_CAP)

/-- `ComplianceAnalyzer._parse_analysis` (compliance_analyzer.py lines
233-251): builds the `sections` dict with the four empty list fields, then
stores the raw text under `"raw_text"`. -/
def _parse_analysis (analysis_text : Text) : PyDict :=
  [("amendments", PyValue.pylist []),
   ("verifications", PyValue.pylist []),
   ("compliant_disclosures", PyValue.pylist []),
   ("key_personnel", PyValue.pylist []),
   ("raw_text", PyValue.str analysis_text)]

/-- The model name recorded in the success result (compliance_analyzer.py
line 219). -/
def MODEL_USED : Text := "gemini-2.0-flash-exp".data

/-- `ComplianceAnalyzer.analyze_form_c` (compliance_analyzer.py lines
178-231), instrumented with the list of prompts sent to the external
reasoning collaborator.  The body has no input validation: it always composes
the prompt, always performs exactly one `generate_content` call, and the
surrounding `try`/`except` turns any raised exception (carried here by
`Except.error` with the exception text) into the failure dictionary of lines
225-231; a normal response yields the success dictionary of lines 214-221. -/
def analyze_form_c_run (generate_content : Text → Except Text Text)
    (issuer_name form_c_text : Text) : PyDict × List Text :=
  match generate_content (analyze_form_c_prompt issuer_name form_c_text) with
  | Except.ok analysis_text =>
      ([("success", PyValue.bool true),
        ("issuer_name", PyValue.str issuer_name),
        ("raw_analysis", PyValue.str analysis_text),
        ("structured_analysis", PyValue.pydict (_parse_analysis analysis_text)),
        ("model_used", PyValue.str MODEL_USED),
        ("error", PyValue.none)], [analyze_form_c_prompt issuer_name form_c_text])
  | Except.error e =>
      ([("success", PyValue.bool false),
        ("issuer_name", PyValue.str issuer_name),
        ("raw_analysis", PyValue.str []),
        ("structured_analysis", PyValue.pydict []),
        ("error", PyValue.str e)], [analyze_form_c_prompt issuer_name form_c_text])

/-- The dictionary returned by `ComplianceAnalyzer.analyze_form_c`. -/
def analyze_form_c (generate_content : Text → Except Text Text)
    (issuer_name form_c_text : Text) : PyDict :=
  (analyze_form_c_run generate_content issuer_name form_c_text).1

/-- Number of occurrences of `pat` in `s`: the number of positions (including
the final empty suffix) at which `pat` is a prefix of the remaining suffix. -/
def countOccur (pat : Text) : Text → Nat
  | [] => if pat.isPrefixOf ([] : Text) then 1 else 0
  | c :: rest => (if pat.isPrefixOf (c :: rest) then 1 else 0) + countOccur pat rest

/-- Occurrences of `pat` in `a ++ b` that start inside `a`. -/
def countCross (pat : Text) : Text → Text → Nat
  | [], _ => 0
  | c :: rest, b => (if pat.isPrefixOf (c :: (rest ++ b)) then 1 else 0) + countCross pat rest b

/-- Concatenation of a list of text fragments. -/
def partsJoin : List Text → Text
  | [] => []
  | p :: ps => p ++ partsJoin ps

/-- Occurrence count of `pat` in `partsJoin parts`, computed fragmentwise:
per fragment, only the first `pat.length` characters of the remaining
fragments can matter for occurrences that start inside it. -/
def countParts (pat : Text) : List Text → Nat
  | [] => 0
  | p :: ps => countCross pat p ((partsJoin ps).take pat.length) + countParts pat ps

/-- The issuer name of the worked example. -/
def ACME_ISSUER : Text := "Acme Corp".data

/-- The document text of the worked example. -/
def ACME_DOC : Text := "Acme is raising $5,000,000 for app expansion...".data

/-- The prompt of the worked example, as the flat list of its literal
fragments (the template segments, the checklist fragments, the issuer name,
and the truncated document text, in template order). -/
def ACME_PARTS : List Text :=
  [PROMPT_SEG1_FRAG1, PROMPT_SEG1_FRAG2, PROMPT_SEG1_FRAG3, PROMPT_SEG1_FRAG4,
   CHECKLIST_FRAG1, CHECKLIST_FRAG2, CHECKLIST_FRAG3, CHECKLIST_FRAG4,
   CHECKLIST_FRAG5, CHECKLIST_FRAG6, PROMPT_SEG2, ACME_ISSUER, PROMPT_SEG3,
   ACME_DOC.take FORM_C_TEXT_CAP, PROMPT_SEG4]


/-- One entry of the issues checklist (compliance_issues_checklist.py): the
four string fields of each issue dict. -/
structure ChecklistItem where
  issue : String
  rule : String
  severity : String
  check : String
deriving DecidableEq

/-- The COMPLIANCE_ISSUES_CHECKLIST dict of compliance_issues_checklist.py (lines
6-279): category key, then the ordered items of that category, in source order. -/
def COMPLIANCE_ISSUES_CHECKLIST : List (String × List ChecklistItem) := [
  ("ownership_structure",
    [
     { issue := "No owners with 20%+ equity identified",
       rule := "Rule 201(h)", severity := "Critical",
       check := "Must identify all beneficial owners with 20% or more of voting equity" },
     { issue := "Ownership structure table missing",
       rule := "Rule 201(h)", severity := "Critical",
       check := "Must provide clear ownership structure including percentages" },
     { issue := "No mention of voting rights or class differences",
       rule := "Rule 201(m)", severity := "High",
       check := "Must disclose voting rights and any differences between share classes" },
     { issue := "No disclosure of shareholder control risks",
       rule := "Rule 201(d)", severity := "High",
       check := "Must disclose risks related to concentrated ownership or control" },
     { issue := "No disclosure of principal shareholder influence",
       rule := "Rule 201(d)", severity := "Medium",
       check := "Should describe how principal shareholders may influence company decisions" }]),
  ("related_party_transactions",
    [
     { issue := "No related-party transactions described",
       rule := "Rule 201(s)", severity := "Critical",
       check := "Must disclose all related party transactions or state \x27None\x27 if applicable" }]),
  ("business_operations",
    [
     { issue := "Business plan not described",
       rule := "Rule 201(b)", severity := "Critical",
       check := "Must provide description of business and business plan" },
     { issue := "No information on operations or future growth strategy",
       rule := "Rule 201(b)", severity := "Critical",
       check := "Must describe current operations and planned business development" }]),
  ("issuer_information",
    [
     { issue := "Physical address missing",
       rule := "Rule 201(a)", severity := "Critical",
       check := "Must provide issuer\x27s physical address" },
     { issue := "Website not listed",
       rule := "Rule 201(a)", severity := "Medium",
       check := "Should provide issuer\x27s website if available" },
     { issue := "Issuer is organized in Canada, not a U.S. state or territory",
       rule := "Rule 100(a)(1)", severity := "Critical",
       check := "Issuer must be organized under U.S. state or territory laws" }]),
  ("intermediary_disclosure",
    [
     { issue := "DealMaker Securities LLC intermediary details omitted",
       rule := "Rule 201(a)", severity := "Critical",
       check := "Must identify the intermediary through which offering is conducted" },
     { issue := "No description of intermediary\x27s financial interest",
       rule := "Rule 201(r)", severity := "Critical",
       check := "Must disclose intermediary compensation and any other financial interest" },
     { issue := "Issuer concurrently using two intermediaries for Reg CF",
       rule := "Rule 100(a)(2)", severity := "Critical",
       check := "May only use one intermediary per offering" }]),
  ("financial_statements",
    [
     { issue := "No CPA review or audit included",
       rule := "Rule 201(t)", severity := "Critical",
       check := "Financial statements must meet required level of review based on offering size" },
     { issue := "Missing CEO certification for unaudited financials",
       rule := "Rule 201(t)", severity := "Critical",
       check := "If financials not reviewed/audited, must include CEO certification" },
     { issue := "No mention of accounting election under JOBS Act",
       rule := "Rule 201(t)", severity := "Low",
       check := "May elect to use reduced accounting standards if applicable" }]),
  ("offering_details",
    [
     { issue := "Target offering amount exceeds limit",
       rule := "Rule 100(a)(1)", severity := "Critical",
       check := "Reg CF offerings limited to $5M in 12-month period" },
     { issue := "Deadline not specified",
       rule := "Rule 201(g)", severity := "Critical",
       check := "Must specify offering deadline" },
     { issue := "No oversubscription allocation method",
       rule := "Rule 201(g)", severity := "High",
       check := "Must describe how oversubscriptions will be allocated" },
     { issue := "Perk disclosure missing",
       rule := "Rule 201(k)", severity := "High",
       check := "Must disclose any perks or rewards offered to investors" },
     { issue := "Bonus share details absent",
       rule := "Rule 201(k)", severity := "High",
       check := "Must clearly describe any bonus share programs" }]),
  ("investor_rights",
    [
     { issue := "No investor cancellation or refund procedure described",
       rule := "Rule 303", severity := "Critical",
       check := "Must describe investor cancellation rights and procedures" },
     { issue := "Incorrect cancellation disclosure (no 48-hour window)",
       rule := "Rule 303", severity := "Critical",
       check := "Must allow 48-hour cancellation window before deadline" },
     { issue := "No disclosure of 5-day reconfirmation requirement after material change",
       rule := "Rule 304", severity := "High",
       check := "Must disclose reconfirmation requirement after material changes" },
     { issue := "No explanation of rolling or early closing mechanics",
       rule := "Rule 201(g)", severity := "Medium",
       check := "Should explain if using rolling closings or early closing option" }]),
  ("valuation_risks",
    [
     { issue := "Valuation methodology not included",
       rule := "Rule 201(d)", severity := "High",
       check := "Should describe how valuation was determined" },
     { issue := "No description of minority shareholder risks",
       rule := "Rule 201(d)", severity := "High",
       check := "Must describe risks specific to minority shareholders" },
     { issue := "No disclosure that valuation is speculative",
       rule := "Rule 201(d)", severity := "Medium",
       check := "Should acknowledge speculative nature of valuation" },
     { issue := "No valuation disclosure or investor fee explanation",
       rule := "Rule 201(d)", severity := "High",
       check := "Must explain valuation and any fees charged to investors" }]),
  ("officers_directors",
    [
     { issue := "No names or titles of officers provided",
       rule := "Rule 201(n)", severity := "Critical",
       check := "Must list all officers and directors with titles" },
     { issue := "No employment history or relevant experience listed",
       rule := "Rule 201(n)", severity := "High",
       check := "Must provide 3-year employment history for officers/directors" },
     { issue := "No indication of other employment positions",
       rule := "Rule 201(n)", severity := "Medium",
       check := "Should disclose other positions held by officers/directors" },
     { issue := "Missing officer business affiliations",
       rule := "Rule 201(n)", severity := "Medium",
       check := "Should disclose material business relationships" }]),
  ("risk_factors",
    [
     { issue := "No discussion of material risks or uncertainties",
       rule := "Rule 201(d)", severity := "Critical",
       check := "Must discuss material factors that make investment risky" },
     { issue := "Missing discussion of dilution or tax treatment",
       rule := "Rule 201(d)", severity := "High",
       check := "Should discuss dilution risks and potential tax consequences" }]),
  ("escrow_procedures",
    [
     { issue := "No escrow agent identified",
       rule := "Rule 303", severity := "High",
       check := "Should identify qualified third party holding investor funds" }]),
  ("eligibility",
    [
     { issue := "No certification confirming eligibility",
       rule := "Rule 100", severity := "Critical",
       check := "Must certify eligibility to use Reg CF" },
     { issue := "Issuer is a reporting company under the Exchange Act",
       rule := "Rule 100(b)", severity := "Critical",
       check := "Reporting companies are ineligible for Reg CF" }])]

/-- `category.replace("_", " ")` for the single-character pattern used in
`get_all_issues_as_prompt` (compliance_issues_checklist.py line 286). -/
def pyReplaceUnderscore (s : Text) : Text :=
  s.map (fun c => if c = '_' then ' ' else c)

/-- Python `str.title()` (compliance_issues_checklist.py line 286): the first
cased character of every run of cased characters is uppercased, the following
ones lowercased; the boolean argument tracks whether the previous character
was cased. -/
def pyTitleGo : Bool → Text → Text
  | _, [] => []
  | prevCased, c :: rest =>
    if c.isAlpha then
      (if prevCased then c.toLower else c.toUpper) :: pyTitleGo true rest
    else c :: pyTitleGo false rest

/-- Python `str.title()` applied to a whole string. -/
def pyTitle (s : Text) : Text := pyTitleGo false s

/-- The per-issue block appended by `get_all_issues_as_prompt`
(compliance_issues_checklist.py lines 290-294). -/
def issue_prompt_block (d : ChecklistItem) : Text :=
  "- Check: ".data ++ d.check.data
    ++ "\n  If missing/inadequate, report: \"".data ++ d.issue.data
    ++ "\"\n  Rule: ".data ++ d.rule.data
    ++ ", Severity: ".data ++ d.severity.data

/-- `get_all_issues_as_prompt` (compliance_issues_checklist.py lines 281-296),
parameterized by the checklist it reads (the source reads the module-level
COMPLIANCE_ISSUES_CHECKLIST): a section header per category (key with
underscores replaced by spaces and title-cased), the issue blocks in order,
all joined with a newline. -/
def get_all_issues_as_prompt_from (checklist : List (String × List ChecklistItem)) : Text :=
  let prompt_sections := checklist.foldl
    (fun acc cat =>
      cat.2.foldl (fun acc2 d => acc2 ++ [issue_prompt_block d])
        (acc ++ ["\n### ".data ++ pyTitle (pyReplaceUnderscore cat.1.data) ++ ":".data]))
    []
  List.intercalate "\n".data prompt_sections

/-- `get_all_issues_as_prompt()` as called at the module level. -/
def get_all_issues_as_prompt : Text :=
  get_all_issues_as_prompt_from COMPLIANCE_ISSUES_CHECKLIST

/-- One call of the checklist rendering, with the checklist state passed
explicitly: the function only reads the checklist, so the call returns the
rendering together with the unchanged checklist. -/
def render_checklist_call (checklist : List (String × List ChecklistItem)) :
    Text × List (String × List ChecklistItem) :=
  (get_all_issues_as_prompt_from checklist, checklist)

/-- `get_issues_by_severity` (compliance_issues_checklist.py lines 298-305):
the nested loop over categories (in dict order) and their issues (in list
order), appending every issue whose severity equals the argument. -/
def get_issues_by_severity (severity : String) : List ChecklistItem :=
  COMPLIANCE_ISSUES_CHECKLIST.foldl
    (fun issues cat =>
      cat.2.foldl
        (fun issues2 issue =>
          if issue.severity = severity then issues2 ++ [issue] else issues2)
        issues)
    []

/-- One page entry of the extraction result (pdf_extractor.py lines 34-37). -/
structure PageEntry where
  page : Nat
  text : Text
deriving DecidableEq

/-- The dictionary returned by `PDFExtractor.extract_text_from_pdf`
(pdf_extractor.py lines 43-49), as a record. -/
structure ExtractResult where
  success : Bool
  total_pages : Nat
  full_text : Text
  pages : List PageEntry
  error : Option Text
deriving DecidableEq

/-- The page block added to `full_text` for one extracted page:
`f"--- Page {page_num} ---\n{page_text}"` (pdf_extractor.py line 38). -/
def page_block (page_num : Nat) (page_text : Text) : Text :=
  "--- Page ".data ++ (Nat.repr page_num).data ++ " ---\n".data ++ page_text

/-- Python truthiness of a `page.extract_text()` result: `None` and the empty
string are falsy (`if page_text:` on pdf_extractor.py line 33). -/
def pyTruthyText (p : Option Text) : Bool :=
  match p with
  | Option.none => false
  | some t => !t.isEmpty

/-- The loop of `extract_text_from_pdf` (pdf_extractor.py lines 31-38):
pages are numbered from 1; a page whose extraction result is falsy (`None` or
empty) contributes neither a `pages` entry nor a `full_text` block. -/
def extract_pages_go : Nat → List (Option Text) → List PageEntry × List Text
  | _, [] => ([], [])
  | page_num, page_text :: rest =>
    if pyTruthyText page_text then
      (⟨page_num, page_text.getD []⟩ :: (extract_pages_go (page_num + 1) rest).1,
        page_block page_num (page_text.getD []) :: (extract_pages_go (page_num + 1) rest).2)
    else extract_pages_go (page_num + 1) rest

/-- `PDFExtractor.extract_text_from_pdf` (pdf_extractor.py lines 14-49) on a
successfully opened PDF, modelled by the list of per-page
`page.extract_text()` results: `total_pages` is the page count of the PDF,
`pages` the entries for the truthy pages, and `full_text` their blocks joined
with a blank line (`"\n\n".join`). -/
def extract_text_from_pdf (pdf_pages : List (Option Text)) : ExtractResult :=
  let go := extract_pages_go 1 pdf_pages
  { success := true
    total_pages := pdf_pages.length
    full_text := List.intercalate "\n\n".data go.2
    pages := go.1
    error := Option.none }

/-- The `ComplianceAnalyzer` object: after `__init__`, it holds the key it was
configured with (compliance_analyzer.py lines 168-176). -/
structure ComplianceAnalyzer where
  api_key : String
deriving DecidableEq

/-- `ComplianceAnalyzer.__init__` (compliance_analyzer.py lines 168-176):
`api_key or os.getenv("GEMINI_API_KEY")` with Python truthiness (`None` and
`""` are falsy), raising `ValueError` when the result is falsy. -/
def ComplianceAnalyzer.init (api_key env_key : Option String) :
    Except String ComplianceAnalyzer :=
  match (match api_key with
         | Option.none => env_key
         | some s => if s = "" then env_key else some s) with
  | Option.none => Except.error "Gemini API key is required"
  | some k =>
    if k = "" then Except.error "Gemini API key is required"
    else Except.ok { api_key := k }

/-- The module-level mutable state of main.py relevant to the analyzer: the
`_compliance_analyzer` singleton (main.py line 60). -/
structure AppState where
  compliance_analyzer : Option ComplianceAnalyzer
deriving DecidableEq

/-- The module-level startup of main.py (import time): the FastAPI app and the
`PDFExtractor` are created and `_compliance_analyzer` is set to `None`
(main.py lines 32-60); no code on this path reads `GEMINI_API_KEY`, so startup
succeeds whatever the environment holds. -/
def main_startup (env_key : Option String) : Except String AppState :=
  Except.ok { compliance_analyzer := Option.none }

/-- `get_compliance_analyzer` (main.py lines 63-74), called from the request
handler on the first analysis request: with no cached instance it reads
`GEMINI_API_KEY`, raises an `HTTPException` (modelled by its detail string)
when the key is missing or empty, and otherwise constructs and caches the
analyzer. -/
def get_compliance_analyzer (env_key : Option String) (st : AppState) :
    Except String (ComplianceAnalyzer × AppState) :=
  match st.compliance_analyzer with
  | some a => Except.ok (a, st)
  | Option.none =>
    match env_key with
    | Option.none =>
      Except.error "Gemini API key not configured. Please set GEMINI_API_KEY environment variable."
    | some k =>
      if k = "" then
        Except.error "Gemini API key not configured. Please set GEMINI_API_KEY environment variable."
      else
        match ComplianceAnalyzer.init (some k) env_key with
        | Except.ok a => Except.ok (a, { compliance_analyzer := some a })
        | Except.error e => Except.error e

theorem take_append_take (n : Nat) (x b : Text) :
    (x ++ b.take n).take n = (x ++ b).take n := by
  rw [List.take_append_eq_append_take, List.take_append_eq_append_take, List.take_take,
    Nat.min_eq_left (Nat.sub_le n x.length)]

theorem prefix_take_boundary (pat x b : Text) :
    pat <+: (x ++ b.take pat.length) ↔ pat <+: (x ++ b) := by
  rw [List.prefix_iff_eq_take, List.prefix_iff_eq_take, take_append_take]

theorem isPrefixOf_take_boundary (pat x b : Text) :
    pat.isPrefixOf (x ++ b.take pat.length) = pat.isPrefixOf (x ++ b) := by
  have h := prefix_take_boundary pat x b
  rw [← List.isPrefixOf_iff_prefix, ← List.isPrefixOf_iff_prefix] at h
  exact Bool.coe_iff_coe.mp h

theorem countOccur_append (pat a b : Text) :
    countOccur pat (a ++ b) = countCross pat a b + countOccur pat b := by
  induction a with
  | nil => simp [countCross]
  | cons c rest ih =>
    show (if pat.isPrefixOf (c :: (rest ++ b)) then 1 else 0) + countOccur pat (rest ++ b) = _
    rw [ih]
    show _ = (if pat.isPrefixOf (c :: (rest ++ b)) then 1 else 0) + countCross pat rest b
      + countOccur pat b
    omega

theorem countCross_take (pat a b : Text) :
    countCross pat a b = countCross pat a (b.take pat.length) := by
  induction a with
  | nil => rfl
  | cons c rest ih =>
    show (if pat.isPrefixOf ((c :: rest) ++ b) then 1 else 0) + countCross pat rest b =
      (if pat.isPrefixOf ((c :: rest) ++ b.take pat.length) then 1 else 0) +
        countCross pat rest (b.take pat.length)
    rw [isPrefixOf_take_boundary, ih]

theorem countOccur_parts (pat : Text) (h : pat ≠ []) (parts : List Text) :
    countOccur pat (partsJoin parts) = countParts pat parts := by
  induction parts with
  | nil =>
    cases pat with
    | nil => exact absurd rfl h
    | cons c rest => rfl
  | cons p ps ih =>
    show countOccur pat (p ++ partsJoin ps) = _
    rw [countOccur_append, countCross_take, ih]
    rfl

theorem acme_prompt_eq_parts :
    analyze_form_c_prompt ACME_ISSUER ACME_DOC = partsJoin ACME_PARTS := by
  simp [analyze_form_c_prompt, REVIEW_PROMPT_TEMPLATE_format, COMPLIANCE_CHECKLIST,
    PROMPT_SEG1, ACME_PARTS, partsJoin, List.append_assoc]

/-- C1: whenever the external reasoning call fails (the collaborator returns
`Except.error e`, the text of the raised exception), `analyze_form_c` still
returns a result dictionary — it is a total function, the `except` branch of
the source never re-raises — and that dictionary has `success = False`, an
empty `structured_analysis` dict, and an error field equal to the exception
text, hence non-empty whenever the exception text is. -/
theorem analyze_form_c_failure_contract (generate_content : Text → Except Text Text)
    (issuer_name form_c_text e : Text)
    (hfail : generate_content (analyze_form_c_prompt issuer_name form_c_text) = Except.error e)
    (hne : e ≠ []) :
    dictLookup (analyze_form_c generate_content issuer_name form_c_text) "success"
        = some (PyValue.bool false) ∧
    dictLookup (analyze_form_c generate_content issuer_name form_c_text) "structured_analysis"
        = some (PyValue.pydict []) ∧
    ∃ msg, dictLookup (analyze_form_c generate_content issuer_name form_c_text) "error"
        = some (PyValue.str msg) ∧ msg ≠ [] := by
  have hres : analyze_form_c generate_content issuer_name form_c_text =
      [("success", PyValue.bool false),
       ("issuer_name", PyValue.str issuer_name),
       ("raw_analysis", PyValue.str []),
       ("structured_analysis", PyValue.pydict []),
       ("error", PyValue.str e)] := by
    simp [analyze_form_c, analyze_form_c_run, hfail]
  rw [hres]
  exact ⟨rfl, rfl, e, rfl, hne⟩

/-- Witness for C1 at a concrete failing collaborator (a forced timeout). -/
theorem analyze_form_c_failure_contract_witness :
    dictLookup (analyze_form_c (fun _ => Except.error "504 Deadline Exceeded".data)
        ACME_ISSUER "some Form C text".data) "success" = some (PyValue.bool false) ∧
    dictLookup (analyze_form_c (fun _ => Except.error "504 Deadline Exceeded".data)
        ACME_ISSUER "some Form C text".data) "structured_analysis"
      = some (PyValue.pydict []) ∧
    ∃ msg, dictLookup (analyze_form_c (fun _ => Except.error "504 Deadline Exceeded".data)
        ACME_ISSUER "some Form C text".data) "error"
      = some (PyValue.str msg) ∧ msg ≠ [] :=
  analyze_form_c_failure_contract (fun _ => Except.error "504 Deadline Exceeded".data)
    ACME_ISSUER "some Form C text".data "504 Deadline Exceeded".data rfl (by decide)

/-- C2 counterexample: with an empty issuer name the operation does not fail
with any input-validation error and the external reasoning call is still
performed (the call trace has exactly one entry, and the call succeeds
normally), refuting the claim that composition fails with `InvalidInputError`
and that no external call happens. -/
theorem analyze_form_c_empty_issuer_still_calls_service :
    (analyze_form_c_run (fun _ => Except.ok "report".data) [] "Some Form C text".data).2.length
      = 1 ∧
    dictLookup (analyze_form_c (fun _ => Except.ok "report".data) [] "Some Form C text".data)
      "success" = some (PyValue.bool true) :=
  ⟨rfl, rfl⟩

/-- C2 amended: `analyze_form_c` performs no input validation at all — for an
empty issuer name or empty document text the prompt is composed anyway, no
`InvalidInputError` exists in the code, and exactly one external reasoning
call is made (with the composed prompt). -/
theorem analyze_form_c_no_input_validation (generate_content : Text → Except Text Text)
    (issuer_name form_c_text : Text)
    (h : issuer_name = [] ∨ form_c_text = []) :
    (analyze_form_c_run generate_content issuer_name form_c_text).2
      = [analyze_form_c_prompt issuer_name form_c_text] := by
  cases hg : generate_content (analyze_form_c_prompt issuer_name form_c_text) with
  | ok t => simp [analyze_form_c_run, hg]
  | error e => simp [analyze_form_c_run, hg]

/-- Witness for the amended C2 at a concrete empty issuer name. -/
theorem analyze_form_c_no_input_validation_witness :
    (analyze_form_c_run (fun _ => Except.ok "report".data) [] ACME_DOC).2
      = [analyze_form_c_prompt [] ACME_DOC] :=
  analyze_form_c_no_input_validation (fun _ => Except.ok "report".data) [] ACME_DOC
    (Or.inl rfl)

/-- C3: the composed request embeds exactly `form_c_text.take FORM_C_TEXT_CAP`
(the Python slice `form_c_text[:100000]`); for document text longer than the
cap the embedded text is the length-100000 prefix of the input (prefix
truncation: the embedded text followed by the dropped tail reconstitutes the
input), and for text of length at most the cap it is embedded unchanged. -/
theorem analyze_form_c_prompt_truncation (issuer_name form_c_text : Text) :
    analyze_form_c_prompt issuer_name form_c_text
      = PROMPT_SEG1 ++ COMPLIANCE_CHECKLIST ++ PROMPT_SEG2 ++ issuer_name ++ PROMPT_SEG3
          ++ form_c_text.take FORM_C_TEXT_CAP ++ PROMPT_SEG4 ∧
    (FORM_C_TEXT_CAP < form_c_text.length →
      (form_c_text.take FORM_C_TEXT_CAP).length = FORM_C_TEXT_CAP ∧
      form_c_text.take FORM_C_TEXT_CAP ++ form_c_text.drop FORM_C_TEXT_CAP = form_c_text) ∧
    (form_c_text.length ≤ FORM_C_TEXT_CAP →
      form_c_text.take FORM_C_TEXT_CAP = form_c_text) := by
  refine ⟨rfl, fun h => ⟨?_, List.take_append_drop _ _⟩, fun h => List.take_of_length_le h⟩
  rw [List.length_take]
  omega

/-- Witness for C3: a 100001-character document is truncated to exactly
100000 characters; the short example document is embedded unchanged. -/
theorem analyze_form_c_prompt_truncation_witness :
    ((List.replicate (FORM_C_TEXT_CAP + 1) 'a').take FORM_C_TEXT_CAP).length
      = FORM_C_TEXT_CAP ∧
    ACME_DOC.take FORM_C_TEXT_CAP = ACME_DOC :=
  ⟨((analyze_form_c_prompt_truncation [] (List.replicate (FORM_C_TEXT_CAP + 1) 'a')).2.1
      (by rw [List.length_replicate]; omega)).1,
   (analyze_form_c_prompt_truncation [] ACME_DOC).2.2 (by decide)⟩

/-- C4: request composition is deterministic — identical (issuer name,
document text) inputs give byte-identical request texts — and the checklist
rendering `get_all_issues_as_prompt` leaves the checklist unchanged (it only
reads it) and returns the same output on a repeated call against that
unchanged checklist. -/
theorem compose_deterministic_render_stable (i1 d1 i2 d2 : Text)
    (h1 : i1 = i2) (h2 : d1 = d2) :
    analyze_form_c_prompt i1 d1 = analyze_form_c_prompt i2 d2 ∧
    (render_checklist_call COMPLIANCE_ISSUES_CHECKLIST).2 = COMPLIANCE_ISSUES_CHECKLIST ∧
    (render_checklist_call ((render_checklist_call COMPLIANCE_ISSUES_CHECKLIST).2)).1
      = (render_checklist_call COMPLIANCE_ISSUES_CHECKLIST).1 := by
  subst h1
  subst h2
  exact ⟨rfl, rfl, rfl⟩

/-- Witness for C4 at the concrete example inputs. -/
theorem compose_deterministic_render_stable_witness :
    analyze_form_c_prompt ACME_ISSUER ACME_DOC = analyze_form_c_prompt ACME_ISSUER ACME_DOC ∧
    (render_checklist_call COMPLIANCE_ISSUES_CHECKLIST).2 = COMPLIANCE_ISSUES_CHECKLIST ∧
    (render_checklist_call ((render_checklist_call COMPLIANCE_ISSUES_CHECKLIST).2)).1
      = (render_checklist_call COMPLIANCE_ISSUES_CHECKLIST).1 :=
  compose_deterministic_render_stable ACME_ISSUER ACME_DOC ACME_ISSUER ACME_DOC rfl rfl

/-- C5: `_parse_analysis` always returns the record with the four (empty)
sequence fields `amendments`, `verifications`, `compliant_disclosures` and
`key_personnel`, stores the input verbatim under `raw_text`, never fails (it
is a total function), and is idempotent: re-structuring the preserved raw
text yields an identical structured record. -/
theorem parse_analysis_contract (analysis_text : Text) :
    dictLookup (_parse_analysis analysis_text) "amendments" = some (PyValue.pylist []) ∧
    dictLookup (_parse_analysis analysis_text) "verifications" = some (PyValue.pylist []) ∧
    dictLookup (_parse_analysis analysis_text) "compliant_disclosures"
      = some (PyValue.pylist []) ∧
    dictLookup (_parse_analysis analysis_text) "key_personnel" = some (PyValue.pylist []) ∧
    dictLookup (_parse_analysis analysis_text) "raw_text"
      = some (PyValue.str analysis_text) ∧
    (∀ s, dictLookup (_parse_analysis analysis_text) "raw_text" = some (PyValue.str s) →
      _parse_analysis s = _parse_analysis analysis_text) := by
  refine ⟨rfl, rfl, rfl, rfl, rfl, fun s hs => ?_⟩
  have h0 : dictLookup (_parse_analysis analysis_text) "raw_text"
      = some (PyValue.str analysis_text) := rfl
  have h1 := Option.some.inj (h0.symm.trans hs)
  have h2 := PyValue.str.inj h1
  rw [h2]

/-- Witness for C5 at a concrete raw report text. -/
theorem parse_analysis_contract_witness :
    dictLookup (_parse_analysis "NO ISSUES FOUND".data) "raw_text"
      = some (PyValue.str "NO ISSUES FOUND".data) ∧
    _parse_analysis "NO ISSUES FOUND".data = _parse_analysis "NO ISSUES FOUND".data :=
  ⟨(parse_analysis_contract "NO ISSUES FOUND".data).2.2.2.2.1,
   (parse_analysis_contract "NO ISSUES FOUND".data).2.2.2.2.2 "NO ISSUES FOUND".data rfl⟩

theorem severity_foldl_eq (severity : String) (l : List ChecklistItem)
    (acc : List ChecklistItem) :
    l.foldl (fun is it => if it.severity = severity then is ++ [it] else is) acc
      = acc ++ l.filter (fun it => it.severity == severity) := by
  induction l generalizing acc with
  | nil => simp
  | cons a l ih =>
    rw [List.foldl_cons, ih, List.filter_cons]
    by_cases h : a.severity = severity
    · simp [h]
    · simp [h]

theorem get_issues_by_severity_foldl_eq (severity : String)
    (cats : List (String × List ChecklistItem)) (acc : List ChecklistItem) :
    cats.foldl
        (fun issues cat =>
          cat.2.foldl
            (fun issues2 issue =>
              if issue.severity = severity then issues2 ++ [issue] else issues2)
            issues)
        acc
      = acc ++ ((cats.map (·.2)).flatten).filter (fun it => it.severity == severity) := by
  induction cats generalizing acc with
  | nil => simp
  | cons c cs ih =>
    rw [List.foldl_cons, severity_foldl_eq, ih]
    simp [List.filter_append, List.append_assoc]

/-- C6: `get_issues_by_severity` returns exactly the checklist items whose
severity equals the argument, in category order and then item order within
each category (i.e. the severity filter of the flattened catalog), and on the
standard checklist the Critical items include one citing "Rule 201(h)". -/
theorem get_issues_by_severity_spec (severity : String) :
    get_issues_by_severity severity
      = ((COMPLIANCE_ISSUES_CHECKLIST.map (·.2)).flatten).filter
          (fun it => it.severity == severity) ∧
    ∃ it, it ∈ get_issues_by_severity "Critical" ∧ it.rule = "Rule 201(h)" := by
  constructor
  · exact (get_issues_by_severity_foldl_eq severity COMPLIANCE_ISSUES_CHECKLIST []).trans
      (List.nil_append _)
  · exact ⟨(⟨"No owners with 20%+ equity identified", "Rule 201(h)", "Critical",
      "Must identify all beneficial owners with 20% or more of voting equity"⟩ : ChecklistItem),
      by decide, rfl⟩

/-- C7 counterexample: on the worked example (issuer "Acme Corp", the sample
document text) the composed request contains the substring
"COMPLIANCE CHECKLIST" twice — once in the template heading and once inside
the embedded checklist constant — not exactly once as claimed. -/
theorem acme_prompt_checklist_heading_not_unique :
    countOccur "COMPLIANCE CHECKLIST".data
      (analyze_form_c_prompt ACME_ISSUER ACME_DOC) ≠ 1 := by
  rw [acme_prompt_eq_parts,
    countOccur_parts "COMPLIANCE CHECKLIST".data (by decide) ACME_PARTS]
  decide

/-- C7 amended: on the worked example the composed request contains
"Acme Corp" exactly once and "COMPLIANCE CHECKLIST" exactly twice. -/
theorem acme_prompt_substring_counts :
    countOccur "Acme Corp".data (analyze_form_c_prompt ACME_ISSUER ACME_DOC) = 1 ∧
    countOccur "COMPLIANCE CHECKLIST".data (analyze_form_c_prompt ACME_ISSUER ACME_DOC)
      = 2 := by
  rw [acme_prompt_eq_parts,
    countOccur_parts "Acme Corp".data (by decide) ACME_PARTS,
    countOccur_parts "COMPLIANCE CHECKLIST".data (by decide) ACME_PARTS]
  exact ⟨by decide, by decide⟩

/-- C8 counterexample: with the credential missing, module startup succeeds
(the analyzer singleton is simply left unset), and it is the first analysis
request — via `get_compliance_analyzer` — that fails with the configuration
error; the system does not fail at startup as claimed. -/
theorem missing_key_startup_succeeds :
    main_startup Option.none = Except.ok { compliance_analyzer := Option.none } ∧
    get_compliance_analyzer Option.none { compliance_analyzer := Option.none }
      = Except.error
          "Gemini API key not configured. Please set GEMINI_API_KEY environment variable." :=
  ⟨rfl, rfl⟩

/-- C8 amended: startup never fails, whatever the environment holds (the
analyzer is lazily initialized), and when the credential is missing the
configuration error is raised at the first analysis request, with a non-empty
error message. -/
theorem missing_key_deferred_to_first_request (env_key : Option String) :
    (∀ e, main_startup env_key ≠ Except.error e) ∧
    (env_key = Option.none →
      ∃ e, get_compliance_analyzer env_key { compliance_analyzer := Option.none }
          = Except.error e ∧ e ≠ "") := by
  constructor
  · intro e h
    simp [main_startup] at h
  · intro h
    subst h
    exact ⟨"Gemini API key not configured. Please set GEMINI_API_KEY environment variable.",
      rfl, by decide⟩

/-- Witness for the amended C8 at the concrete missing-credential input. -/
theorem missing_key_deferred_to_first_request_witness :
    main_startup Option.none ≠ Except.error "boom" ∧
    ∃ e, get_compliance_analyzer Option.none { compliance_analyzer := Option.none }
        = Except.error e ∧ e ≠ "" :=
  ⟨(missing_key_deferred_to_first_request Option.none).1 "boom",
   (missing_key_deferred_to_first_request Option.none).2 rfl⟩

/-- C9: the success-path and failure-path results of `analyze_form_c` have
different key sets: on success the dictionary has the six keys including
`model_used` (bound to the model name), while on failure the dictionary has
only five keys and omits `model_used` entirely. -/
theorem analyze_form_c_key_sets (generate_content : Text → Except Text Text)
    (issuer_name form_c_text : Text) :
    (∀ t, generate_content (analyze_form_c_prompt issuer_name form_c_text) = Except.ok t →
      dictKeys (analyze_form_c generate_content issuer_name form_c_text)
        = ["success", "issuer_name", "raw_analysis", "structured_analysis",
           "model_used", "error"] ∧
      dictLookup (analyze_form_c generate_content issuer_name form_c_text) "model_used"
        = some (PyValue.str MODEL_USED)) ∧
    (∀ e, generate_content (analyze_form_c_prompt issuer_name form_c_text) = Except.error e →
      dictKeys (analyze_form_c generate_content issuer_name form_c_text)
        = ["success", "issuer_name", "raw_analysis", "structured_analysis", "error"] ∧
      "model_used" ∉ dictKeys (analyze_form_c generate_content issuer_name form_c_text)) := by
  constructor
  · intro t ht
    have hres : analyze_form_c generate_content issuer_name form_c_text =
        [("success", PyValue.bool true),
         ("issuer_name", PyValue.str issuer_name),
         ("raw_analysis", PyValue.str t),
         ("structured_analysis", PyValue.pydict (_parse_analysis t)),
         ("model_used", PyValue.str MODEL_USED),
         ("error", PyValue.none)] := by
      simp [analyze_form_c, analyze_form_c_run, ht]
    rw [hres]
    exact ⟨rfl, rfl⟩
  · intro e he
    have hres : analyze_form_c generate_content issuer_name form_c_text =
        [("success", PyValue.bool false),
         ("issuer_name", PyValue.str issuer_name),
         ("raw_analysis", PyValue.str []),
         ("structured_analysis", PyValue.pydict []),
         ("error", PyValue.str e)] := by
      simp [analyze_form_c, analyze_form_c_run, he]
    rw [hres]
    refine ⟨rfl, ?_⟩
    show "model_used" ∉
      (["success", "issuer_name", "raw_analysis", "structured_analysis", "error"] : List String)
    decide

/-- Witness for C9: a succeeding collaborator yields the six-key dictionary;
a failing one yields a dictionary without the `model_used` key. -/
theorem analyze_form_c_key_sets_witness :
    dictKeys (analyze_form_c (fun _ => Except.ok "NO ISSUES FOUND".data)
        ACME_ISSUER "valid text".data)
      = ["success", "issuer_name", "raw_analysis", "structured_analysis",
         "model_used", "error"] ∧
    "model_used" ∉ dictKeys (analyze_form_c (fun _ => Except.error "quota exceeded".data)
        ACME_ISSUER "valid text".data) :=
  ⟨((analyze_form_c_key_sets (fun _ => Except.ok "NO ISSUES FOUND".data)
      ACME_ISSUER "valid text".data).1 "NO ISSUES FOUND".data rfl).1,
   ((analyze_form_c_key_sets (fun _ => Except.error "quota exceeded".data)
      ACME_ISSUER "valid text".data).2 "quota exceeded".data rfl).2⟩

theorem extract_pages_go_length (n : Nat) (pdf : List (Option Text)) :
    (extract_pages_go n pdf).1.length = (pdf.filter pyTruthyText).length := by
  induction pdf generalizing n with
  | nil => rfl
  | cons p rest ih =>
    by_cases h : pyTruthyText p
    · simp [extract_pages_go, h, List.filter_cons, ih]
    · simp [extract_pages_go, h, List.filter_cons, ih]

theorem extract_pages_go_blocks (n : Nat) (pdf : List (Option Text)) :
    (extract_pages_go n pdf).2
      = (extract_pages_go n pdf).1.map (fun e => page_block e.page e.text) := by
  induction pdf generalizing n with
  | nil => rfl
  | cons p rest ih =>
    by_cases h : pyTruthyText p
    · simp [extract_pages_go, h, ih]
    · simp [extract_pages_go, h, ih]

theorem extract_pages_go_sound (n : Nat) (pdf : List (Option Text)) :
    ∀ e ∈ (extract_pages_go n pdf).1,
      n ≤ e.page ∧ e.page < n + pdf.length ∧
      pdf.getD (e.page - n) Option.none = some e.text ∧ e.text ≠ [] := by
  induction pdf generalizing n with
  | nil => intro e he; cases he
  | cons p rest ih =>
    intro e he
    by_cases h : pyTruthyText p
    · rw [extract_pages_go, if_pos h] at he
      cases he with
      | head =>
        cases p with
        | none => simp [pyTruthyText] at h
        | some t =>
          cases t with
          | nil => simp [pyTruthyText] at h
          | cons c cs =>
            refine ⟨Nat.le_refl n, by simp, by simp, by simp⟩
      | tail _ hmem =>
        obtain ⟨h1, h2, h3, h4⟩ := ih (n + 1) e hmem
        refine ⟨by omega, by simp; omega, ?_, h4⟩
        have hidx : e.page - n = (e.page - (n + 1)) + 1 := by omega
        rw [hidx, List.getD_cons_succ]
        exact h3
    · rw [extract_pages_go, if_neg h] at he
      obtain ⟨h1, h2, h3, h4⟩ := ih (n + 1) e he
      refine ⟨by omega, by simp; omega, ?_, h4⟩
      have hidx : e.page - n = (e.page - (n + 1)) + 1 := by omega
      rw [hidx, List.getD_cons_succ]
      exact h3

theorem extract_pages_go_omits (n : Nat) (pdf : List (Option Text)) (i : Nat)
    (hfalsy : pyTruthyText (pdf.getD i Option.none) = false) :
    ∀ e ∈ (extract_pages_go n pdf).1, e.page ≠ n + i := by
  intro e he heq
  obtain ⟨h1, h2, h3, h4⟩ := extract_pages_go_sound n pdf e he
  have hidx : e.page - n = i := by omega
  rw [hidx] at h3
  rw [h3] at hfalsy
  simp [pyTruthyText, List.isEmpty_iff] at hfalsy
  exact h4 hfalsy

/-- C10: on a successfully opened PDF, `extract_text_from_pdf` reports
`total_pages` equal to the PDF's page count, while pages whose extracted text
is `None` or empty are silently omitted: the `pages` sequence has exactly one
entry per truthy page (so its length can be strictly smaller than
`total_pages` as soon as one page yields no text), no omitted page number
occurs among the entries, and `full_text` is exactly the join of the page
blocks of the retained entries — omitted pages contribute no page marker. -/
theorem extract_text_from_pdf_contract (pdf_pages : List (Option Text)) :
    (extract_text_from_pdf pdf_pages).success = true ∧
    (extract_text_from_pdf pdf_pages).total_pages = pdf_pages.length ∧
    (extract_text_from_pdf pdf_pages).full_text
      = List.intercalate "\n\n".data
          ((extract_text_from_pdf pdf_pages).pages.map (fun e => page_block e.page e.text)) ∧
    (extract_text_from_pdf pdf_pages).pages.length
      = (pdf_pages.filter pyTruthyText).length ∧
    (∀ i, pyTruthyText (pdf_pages.getD i Option.none) = false →
      ∀ e ∈ (extract_text_from_pdf pdf_pages).pages, e.page ≠ i + 1) ∧
    ((∃ p ∈ pdf_pages, pyTruthyText p = false) →
      (extract_text_from_pdf pdf_pages).pages.length
        < (extract_text_from_pdf pdf_pages).total_pages) := by
  refine ⟨rfl, rfl, ?_, extract_pages_go_length 1 pdf_pages, ?_, ?_⟩
  · show List.intercalate "\n\n".data (extract_pages_go 1 pdf_pages).2 = _
    rw [extract_pages_go_blocks]
    rfl
  · intro i hfalsy e he heq
    exact extract_pages_go_omits 1 pdf_pages i hfalsy e he (by omega)
  · intro hex
    have hlen := extract_pages_go_length 1 pdf_pages
    have hfl : (pdf_pages.filter pyTruthyText).length < pdf_pages.length := by
      rw [List.length_filter_lt_length_iff_exists]
      obtain ⟨p, hp, hf⟩ := hex
      exact ⟨p, hp, by simp [hf]⟩
    show (extract_pages_go 1 pdf_pages).1.length < pdf_pages.length
    omega

/-- Witness for C10: a three-page PDF whose middle page yields no text has
only two `pages` entries (strictly fewer than `total_pages` = 3), and no
entry carries page number 2. -/
theorem extract_text_from_pdf_contract_witness :
    (extract_text_from_pdf [some "a".data, some [], some "b".data]).pages.length
      < (extract_text_from_pdf [some "a".data, some [], some "b".data]).total_pages ∧
    ∀ e ∈ (extract_text_from_pdf [some "a".data, some [], some "b".data]).pages,
      e.page ≠ 2 :=
  ⟨(extract_text_from_pdf_contract [some "a".data, some [], some "b".data]).2.2.2.2.2
      ⟨some [], by simp, rfl⟩,
   fun e he =>
     (extract_text_from_pdf_contract [some "a".data, some [], some "b".data]).2.2.2.2.1
       1 rfl e he⟩
